import Mathlib

/-!
Shallow embedding of the Substrate ERC20 pallet
(`src/pallets/erc20/src/lib.rs`) and verification of its specification.

Modelling decisions, each traceable to the source:
* `T::AccountId` is modelled as `Nat`; `T::TokenBalance` (an
  `AtLeast32BitUnsigned` type of some machine width) is modelled as `Nat`
  together with an explicit width parameter `w`: a value of the Rust type
  is a natural number below `2 ^ w`, and the deployment width satisfies
  `32 ≤ w` (the `AtLeast32BitUnsigned` bound).
* The storage maps `BalanceOf` (account to balance) and `Allowance`
  (pair of accounts to allowance) are association lists with default
  value `0` for absent keys, exactly the semantics of a Substrate
  storage map of a `Default` value type; `insert` overwrites.
* `checked_add` / `checked_sub` return `Option Nat`, failing above
  `2 ^ w - 1` respectively below `0`, as the Rust `CheckedAdd` /
  `CheckedSub` trait operations do on an unsigned type of width `w`.
* The unchecked `+` in `approve` (`allowance + value`) is modelled as
  wrapping addition modulo `2 ^ w`, the behaviour of Rust release builds
  (with `overflow-checks` off the runtime wraps; with them on it would
  abort — in neither build does it return an error).
* Dispatchable calls take an `Origin` (`some a` = signed by `a`,
  `none` = unsigned) and thread the storage state explicitly, returning
  the `DispatchResult` together with the post state.  Storage writes
  performed before a later error are kept, matching the non-transactional
  dispatch semantics of the `decl_module!`-era FRAME this pallet is
  written against (no rollback of partial writes on `Err`).
* `ensure!(cond, "msg")` failures are `Err.other "msg"`
  (`DispatchError::Other`), and the declared pallet error is
  `Err.storageOverflow` (`Error::<T>::StorageOverflow`); `ensure_signed`
  failure is `Err.badOrigin`.
* Events deposited by `deposit_event` are appended to an event list in
  the state.
-/

namespace Erc20

/-- Account identities (`T::AccountId`), opaque to the pallet. -/
abbrev AccountId := Nat

/-- Dispatch origin: `some a` is a signed origin of account `a`, `none` an
unsigned origin. -/
abbrev Origin := Option AccountId

/-- Errors a dispatchable can return: `other msg` models
`DispatchError::Other(msg)` produced by `ensure!(_, msg)`,
`storageOverflow` the declared `Error::<T>::StorageOverflow`, and
`badOrigin` the failure of `ensure_signed`. -/
inductive Err where
  | other : String → Err
  | storageOverflow : Err
  | badOrigin : Err
deriving DecidableEq, Repr

/-- The token metadata record `Erc20Token<U>` of the source. -/
structure Erc20Token where
  name : List Nat
  ticker : List Nat
  total_supply : Nat
deriving DecidableEq, Repr

/-- The two event kinds of `decl_event!`: `Transfer(from, to, value)` and
`Approval(owner, spender, value)`. -/
inductive RawEvent where
  | Transfer : AccountId → AccountId → Nat → RawEvent
  | Approval : AccountId → AccountId → Nat → RawEvent
deriving DecidableEq, Repr

/-- Association-list finite map with default value `0`: lookup. -/
def mapLookup {K : Type} [DecidableEq K] : List (K × Nat) → K → Nat
  | [], _ => 0
  | (k', v) :: rest, k => if k = k' then v else mapLookup rest k

/-- Association-list finite map: overwrite-or-add insert, the semantics of
a Substrate storage-map `insert`. -/
def mapInsert {K : Type} [DecidableEq K] : List (K × Nat) → K → Nat → List (K × Nat)
  | [], k, v => [(k, v)]
  | (k', v') :: rest, k, v =>
      if k = k' then (k, v) :: rest else (k', v') :: mapInsert rest k v

/-- Sum of all values stored in the map (sum of all balance entries). -/
def mapSum {K : Type} : List (K × Nat) → Nat
  | [] => 0
  | (_, v) :: rest => v + mapSum rest

/-- The pallet storage (`decl_storage!`): the `Tokens` record, the
`BalanceOf` and `Allowance` maps, plus the list of deposited events. -/
structure State where
  tokens : Erc20Token
  balanceOf : List (AccountId × Nat)
  allowance : List ((AccountId × AccountId) × Nat)
  events : List RawEvent
deriving DecidableEq, Repr

/-- The `balance_of` storage getter: default `0` for unseen accounts. -/
def balance_of (s : State) (a : AccountId) : Nat :=
  mapLookup s.balanceOf a

/-- The `allowance` storage getter: default `0` for unseen pairs. -/
def allowance (s : State) (p : AccountId × AccountId) : Nat :=
  mapLookup s.allowance p

/-- The `token_details` storage getter. -/
def token_details (s : State) : Erc20Token :=
  s.tokens

/-- `ensure_signed`: extract the signing account or fail with `BadOrigin`. -/
def ensure_signed : Origin → Except Err AccountId
  | some a => .ok a
  | none => .error .badOrigin

/-- `CheckedSub::checked_sub` on an unsigned integer: `none` on underflow. -/
def checked_sub (a b : Nat) : Option Nat :=
  if b ≤ a then some (a - b) else none

/-- `CheckedAdd::checked_add` on an unsigned integer of width `w`: `none`
when the sum does not fit in `w` bits. -/
def checked_add (w a b : Nat) : Option Nat :=
  if a + b < 2 ^ w then some (a + b) else none

/-- `Self::deposit_event`: record an event. -/
def deposit_event (s : State) (e : RawEvent) : State :=
  { s with events := s.events ++ [e] }

/-- Result of a dispatchable call: the `DispatchResult` and the post
state (partial writes before an error are kept, as in non-transactional
FRAME dispatch). -/
abbrev CallResult := Except Err Unit × State

/-- Whether a `DispatchResult` is `Ok`. -/
def isOk : Except Err Unit → Bool
  | .ok _ => true
  | .error _ => false

/-- The internal `_transfer(from, to, value)`: ensure
`sender_balance >= value` (else `"Not enough balance."`), checked-subtract
from the sender balance, read the receiver balance, checked-add `value`
(else `StorageOverflow`), then write the sender balance, write the
receiver balance, and deposit `Transfer(from, to, value)`.  Note the
receiver balance is read before the sender debit is written. -/
def _transfer (w : Nat) (from_ to_ : AccountId) (value : Nat) (s : State) : CallResult :=
  let sender_balance := balance_of s from_
  if sender_balance ≥ value then
    match checked_sub sender_balance value with
    | none => (.error .storageOverflow, s)
    | some updated_from_balance =>
      let receiver_balance := balance_of s to_
      match checked_add w receiver_balance value with
      | none => (.error .storageOverflow, s)
      | some updated_to_balance =>
        let s1 := { s with balanceOf := mapInsert s.balanceOf from_ updated_from_balance }
        let s2 := { s1 with balanceOf := mapInsert s1.balanceOf to_ updated_to_balance }
        (.ok (), deposit_event s2 (.Transfer from_ to_ value))
  else (.error (.other "Not enough balance."), s)

/-- The dispatchable `init(origin, name, ticker, total_supply)`: ensure
the name is at most 64 bytes and the ticker at most 32 bytes, then store
the token record and set the sender's balance to `total_supply`. -/
def init (origin : Origin) (name ticker : List Nat) (total_supply : Nat) (s : State) : CallResult :=
  match ensure_signed origin with
  | .error e => (.error e, s)
  | .ok sender =>
    if name.length ≤ 64 then
      if ticker.length ≤ 32 then
        let token : Erc20Token := { name := name, ticker := ticker, total_supply := total_supply }
        let s1 := { s with tokens := token }
        let s2 := { s1 with balanceOf := mapInsert s1.balanceOf sender total_supply }
        (.ok (), s2)
      else (.error (.other "token ticker cannot exceed 32 bytes"), s)
    else (.error (.other "token name cannot exceed 64 bytes"), s)

/-- The dispatchable `transfer(origin, to, value)`: `ensure_signed`, then
delegate to `_transfer(sender, to, value)`. -/
def transfer (w : Nat) (origin : Origin) (to_ : AccountId) (value : Nat) (s : State) : CallResult :=
  match ensure_signed origin with
  | .error e => (.error e, s)
  | .ok sender => _transfer w sender to_ value s

/-- The dispatchable `transfer_from(_origin, from, to, value)`: the origin
is never inspected (no `ensure_signed`).  Reads
`allowance((from, to))` — the pair is `(from, to)`, not `(from, caller)` —
ensures it is at least `value` (else `"Not enough allowance."`),
checked-subtracts `value`, writes the updated allowance, deposits
`Approval(from, to, value)`, and finally calls `_transfer(from, to,
value)`.  The allowance write and the `Approval` event precede the
balance move and are kept even when `_transfer` fails. -/
def transfer_from (w : Nat) (_origin : Origin) (from_ to_ : AccountId) (value : Nat) (s : State) : CallResult :=
  let allowance_ := allowance s (from_, to_)
  if allowance_ ≥ value then
    match checked_sub allowance_ value with
    | none => (.error .storageOverflow, s)
    | some updated_allowance =>
      let s1 := { s with allowance := mapInsert s.allowance (from_, to_) updated_allowance }
      let s2 := deposit_event s1 (.Approval from_ to_ value)
      _transfer w from_ to_ value s2
  else (.error (.other "Not enough allowance."), s)

/-- The dispatchable `approve(origin, spender, value)`: `ensure_signed`,
read `allowance((sender, spender))`, add `value` with the UNCHECKED `+`
(modelled as wrapping modulo `2 ^ w`), write the updated allowance, and
deposit `Approval(sender, spender, value)`.  Always returns `Ok` on a
signed origin. -/
def approve (w : Nat) (origin : Origin) (spender : AccountId) (value : Nat) (s : State) : CallResult :=
  match ensure_signed origin with
  | .error e => (.error e, s)
  | .ok sender =>
    let allowance_ := allowance s (sender, spender)
    let updated_allowance := (allowance_ + value) % 2 ^ w
    let s1 := { s with allowance := mapInsert s.allowance (sender, spender) updated_allowance }
    (.ok (), deposit_event s1 (.Approval sender spender value))

/-- One post-issuance operation, for reachability statements. -/
inductive Op where
  | transfer (origin : Origin) (to_ : AccountId) (value : Nat)
  | approve (origin : Origin) (spender : AccountId) (value : Nat)
  | transfer_from (origin : Origin) (from_ to_ : AccountId) (value : Nat)
deriving DecidableEq, Repr

/-- Apply one operation to the state, keeping the post state whether or
not the dispatch succeeded. -/
def step (w : Nat) (s : State) : Op → State
  | .transfer origin to_ value => (transfer w origin to_ value s).2
  | .approve origin spender value => (approve w origin spender value s).2
  | .transfer_from origin from_ to_ value => (transfer_from w origin from_ to_ value s).2

/-- Run a sequence of operations. -/
def run (w : Nat) (s : State) : List Op → State
  | [] => s
  | op :: ops => run w (step w s op) ops

/-- The empty pre-issuance state: default token record, empty maps. -/
def freshState : State :=
  { tokens := { name := [], ticker := [], total_supply := 0 }
    balanceOf := []
    allowance := []
    events := [] }

end Erc20

namespace Erc20

/-- Looking up the key just inserted returns the inserted value. -/
theorem mapLookup_mapInsert_eq {K : Type} [DecidableEq K] (m : List (K × Nat)) (k : K) (v : Nat) :
    mapLookup (mapInsert m k v) k = v := by
  induction m with
  | nil => simp [mapInsert, mapLookup]
  | cons p rest ih =>
    obtain ⟨k', v'⟩ := p
    by_cases h : k = k'
    · simp [mapInsert, mapLookup, h]
    · simp [mapInsert, mapLookup, h, ih]

/-- Looking up any other key is unaffected by an insert. -/
theorem mapLookup_mapInsert_ne {K : Type} [DecidableEq K] (m : List (K × Nat)) (k k' : K)
    (v : Nat) (h : k' ≠ k) :
    mapLookup (mapInsert m k v) k' = mapLookup m k' := by
  induction m with
  | nil => simp [mapInsert, mapLookup, h]
  | cons p rest ih =>
    obtain ⟨k0, v0⟩ := p
    by_cases h2 : k = k0
    · subst h2
      simp [mapInsert, mapLookup, h]
    · by_cases h3 : k' = k0 <;> simp [mapInsert, mapLookup, h2, h3, ih]

/-- Concrete state for the C1 evaluation: account 1 holds 100 tokens, the
pair `(1, 2)` holds allowance 100, and the caller 99 holds no allowance
from account 1 at all. -/
def c1State : State :=
  { tokens := { name := [84], ticker := [84], total_supply := 100 }
    balanceOf := [(1, 100)]
    allowance := [(((1 : AccountId), (2 : AccountId)), 100)]
    events := [] }

/-- Second concrete state for C1: the caller 99 holds allowance 100 from
account 1, but the pair `(1, 2)` holds none. -/
def c1State2 : State :=
  { tokens := { name := [84], ticker := [84], total_supply := 100 }
    balanceOf := [(1, 100)]
    allowance := [(((1 : AccountId), (99 : AccountId)), 100)]
    events := [] }

/-- C1: the claim says `transfer_from(spender, from, to, value)` reads the
allowance keyed `(from, spender)` — `spender` the authenticated caller —
and fails with `InsufficientAllowance` (with no mutation) whenever that
entry is below `value`.  Evaluation of the code refutes this: with
`allowance (1, 99) = 0`, the call `transfer_from(caller 99, 1, 2, 50)`
succeeds and moves 50 tokens, because the code reads the allowance keyed
`(from, to)`; conversely, with `allowance (1, 99) = 100` and
`allowance (1, 2) = 0` the same call fails even though the caller's
allowance covers `value`. -/
theorem transfer_from_allowance_keyed_from_to :
    allowance c1State (1, 99) = 0 ∧
    isOk (transfer_from 32 (some 99) 1 2 50 c1State).1 = true ∧
    balance_of (transfer_from 32 (some 99) 1 2 50 c1State).2 2 = 50 ∧
    balance_of (transfer_from 32 (some 99) 1 2 50 c1State).2 1 = 50 ∧
    allowance c1State2 (1, 99) = 100 ∧
    (transfer_from 32 (some 99) 1 2 50 c1State2).1 =
      Except.error (Err.other "Not enough allowance.") ∧
    (transfer_from 32 (some 99) 1 2 50 c1State2).2 = c1State2 := by
  refine ⟨by decide, by decide, by decide, by decide, by decide, rfl, by decide⟩

/-- C2: `transfer_from` never inspects its origin: for any two origins
(in particular any two signed caller identities) and the same starting
state and arguments, the result and the final state coincide. -/
theorem transfer_from_origin_independent (w : Nat) (o1 o2 : Origin) (from_ to_ : AccountId)
    (value : Nat) (s : State) :
    transfer_from w o1 from_ to_ value s = transfer_from w o2 from_ to_ value s := rfl

/-- Concrete state for the C3 evaluation: the pair `(1, 2)` holds
allowance 10 but account 1 has no balance, so the balance move must
fail. -/
def c3State : State :=
  { tokens := { name := [84], ticker := [84], total_supply := 0 }
    balanceOf := []
    allowance := [(((1 : AccountId), (2 : AccountId)), 10)]
    events := [] }

/-- C3: the claim says a `transfer_from` that passes the allowance check
but fails at the balance move leaves the state unchanged (the allowance
is not left decremented).  Evaluation of the code refutes this: with
allowance 10 on `(1, 2)` and a zero balance on account 1,
`transfer_from(_, 1, 2, 5)` passes the allowance check, fails the balance
move with `"Not enough balance."`, yet the final state carries the
decremented allowance 5 and an already-deposited `Approval` event: the
write precedes the balance move and is not rolled back. -/
theorem transfer_from_leaves_allowance_decremented :
    allowance c3State (1, 2) = 10 ∧
    balance_of c3State 1 = 0 ∧
    (transfer_from 32 (some 7) 1 2 5 c3State).1 =
      Except.error (Err.other "Not enough balance.") ∧
    allowance (transfer_from 32 (some 7) 1 2 5 c3State).2 (1, 2) = 5 ∧
    ((transfer_from 32 (some 7) 1 2 5 c3State).2).events = [RawEvent.Approval 1 2 5] ∧
    (transfer_from 32 (some 7) 1 2 5 c3State).2 ≠ c3State := by
  refine ⟨by decide, by decide, rfl, by decide, by decide, by decide⟩

/-- C4: the claim says every state reachable from a freshly issued ledger
by `transfer` / `approve` / `transfer_from` keeps the sum of all balances
equal to the stored total supply.  Evaluation of the code refutes this:
issue 10 tokens to account 1, then self-transfer 5 from account 1 to
itself; the receiver balance is read before the sender debit is written
and the credit overwrites the debit, so account 1 ends with 15 while the
stored total supply is 10. -/
theorem conservation_broken_by_self_transfer :
    isOk (init (some 1) [84] [84] 10 freshState).1 = true ∧
    mapSum ((init (some 1) [84] [84] 10 freshState).2).balanceOf = 10 ∧
    isOk (transfer 32 (some 1) 1 5 (init (some 1) [84] [84] 10 freshState).2).1 = true ∧
    mapSum (run 32 (init (some 1) [84] [84] 10 freshState).2
      [Op.transfer (some 1) 1 5]).balanceOf = 15 ∧
    (run 32 (init (some 1) [84] [84] 10 freshState).2
      [Op.transfer (some 1) 1 5]).tokens.total_supply = 10 ∧
    mapSum (run 32 (init (some 1) [84] [84] 10 freshState).2
        [Op.transfer (some 1) 1 5]).balanceOf ≠
      (run 32 (init (some 1) [84] [84] 10 freshState).2
        [Op.transfer (some 1) 1 5]).tokens.total_supply := by
  refine ⟨by decide, by decide, by decide, by decide, by decide, by decide⟩

end Erc20

namespace Erc20

/-- Shape of a successful `_transfer`: when the sender balance covers
`value` and the receiver credit fits in `w` bits, the sender balance is
debited, the receiver balance (read before the debit write) is credited,
and a `Transfer` event is deposited. -/
theorem _transfer_ok (w : Nat) (from_ to_ : AccountId) (v : Nat) (s : State)
    (h1 : v ≤ balance_of s from_) (h2 : balance_of s to_ + v < 2 ^ w) :
    _transfer w from_ to_ v s =
      (Except.ok (), { s with
        balanceOf := mapInsert (mapInsert s.balanceOf from_ (balance_of s from_ - v)) to_
          (balance_of s to_ + v)
        events := s.events ++ [RawEvent.Transfer from_ to_ v] }) := by
  simp [_transfer, checked_sub, checked_add, deposit_event, h1, h2]

/-- Concrete state for the C5 counterexample: account 1 holds the maximal
32-bit balance. -/
def c5CexState : State :=
  { tokens := { name := [84], ticker := [84], total_supply := 4294967295 }
    balanceOf := [(1, 4294967295)]
    allowance := []
    events := [] }

/-- C5 counterexample: the claim says every self-transfer with
`v ≤ balance_of a` succeeds, but with `balance_of 1 = 2 ^ 32 - 1` and
`v = 1` the checked receiver credit overflows the width and the call
fails with `StorageOverflow`. -/
theorem self_transfer_overflow_cex :
    1 ≤ balance_of c5CexState 1 ∧
    (transfer 32 (some 1) 1 1 c5CexState).1 = Except.error Err.storageOverflow ∧
    isOk (transfer 32 (some 1) 1 1 c5CexState).1 = false := by
  refine ⟨by decide, rfl, by decide⟩

/-- C5 (amended): for every account `a` and value `v` with
`v ≤ balance_of a` AND `balance_of a + v` within the integer width, the
self-transfer `transfer(a, a, v)` succeeds and leaves `balance_of a`
equal to its previous value plus `v`: the receiver balance is read before
the sender debit is written and the credit write overwrites the debit
write. -/
theorem self_transfer_adds_value (w : Nat) (a : AccountId) (v : Nat) (s : State)
    (hle : v ≤ balance_of s a) (hov : balance_of s a + v < 2 ^ w) :
    (transfer w (some a) a v s).1 = Except.ok () ∧
    balance_of (transfer w (some a) a v s).2 a = balance_of s a + v := by
  have key : transfer w (some a) a v s = _transfer w a a v s := by
    simp [transfer, ensure_signed]
  rw [key, _transfer_ok w a a v s hle hov]
  exact ⟨rfl, by simp [balance_of, mapLookup_mapInsert_eq]⟩

/-- Concrete state for the C5 witness: account 1 holds 3 tokens. -/
def c5WitState : State :=
  { tokens := { name := [84], ticker := [84], total_supply := 3 }
    balanceOf := [(1, 3)]
    allowance := []
    events := [] }

/-- C5 witness: the amended self-transfer theorem at account 1, value 2,
balance 3, width 32. -/
theorem self_transfer_adds_value_witness :
    (transfer 32 (some 1) 1 2 c5WitState).1 = Except.ok () ∧
    balance_of (transfer 32 (some 1) 1 2 c5WitState).2 1 = balance_of c5WitState 1 + 2 :=
  self_transfer_adds_value 32 1 2 c5WitState (by decide) (by decide)

/-- Concrete state for the C6 evaluation: the pair `(1, 2)` holds the
maximal 32-bit allowance. -/
def c6State : State :=
  { tokens := { name := [84], ticker := [84], total_supply := 0 }
    balanceOf := []
    allowance := [(((1 : AccountId), (2 : AccountId)), 4294967295)]
    events := [] }

/-- C6: the claim says `approve` fails with an `Overflow` error returned
to the caller (not a wrapped value) when the addition overflows the
width, with no mutation.  Evaluation of the code refutes this: the code
adds with the UNCHECKED `+` (the only unchecked arithmetic in the
pallet), so at allowance `2 ^ 32 - 1` plus 1 the call returns `Ok` and
stores the wrapped value 0 (and under a build with overflow checks it
would abort rather than return an error). -/
theorem approve_overflow_wraps :
    allowance c6State (1, 2) = 2 ^ 32 - 1 ∧
    (approve 32 (some 1) 2 1 c6State).1 = Except.ok () ∧
    allowance (approve 32 (some 1) 2 1 c6State).2 (1, 2) = 0 ∧
    (approve 32 (some 1) 2 1 c6State).2 ≠ c6State := by
  refine ⟨by decide, rfl, by decide, by decide⟩

/-- C7: `transfer(caller, to, value)` fails with the insufficient-balance
error when the caller's balance is below `value`, fails with the overflow
error (`StorageOverflow`) when the receiver credit does not fit in the
width, and in either case the returned state is exactly the initial
state: no balance entry (nor anything else) is mutated. -/
theorem transfer_failure_no_mutation (w : Nat) (caller to_ : AccountId) (v : Nat) (s : State) :
    (balance_of s caller < v →
      transfer w (some caller) to_ v s = (Except.error (Err.other "Not enough balance."), s)) ∧
    (v ≤ balance_of s caller → 2 ^ w ≤ balance_of s to_ + v →
      transfer w (some caller) to_ v s = (Except.error Err.storageOverflow, s)) := by
  constructor
  · intro h
    simp [transfer, ensure_signed, _transfer, Nat.not_le.mpr h]
  · intro h1 h2
    simp [transfer, ensure_signed, _transfer, checked_sub, checked_add, h1, Nat.not_lt.mpr h2]

/-- Concrete state for the first C7 witness case: account 1 holds
nothing. -/
def c7StateA : State :=
  { tokens := { name := [84], ticker := [84], total_supply := 0 }
    balanceOf := []
    allowance := []
    events := [] }

/-- Concrete state for the second C7 witness case: account 2 holds the
maximal 32-bit balance, so crediting 1 more overflows. -/
def c7StateB : State :=
  { tokens := { name := [84], ticker := [84], total_supply := 4294967296 }
    balanceOf := [(1, 1), (2, 4294967295)]
    allowance := []
    events := [] }

/-- C7 witness: both failure branches at concrete inputs and width 32. -/
theorem transfer_failure_no_mutation_witness :
    transfer 32 (some 1) 2 5 c7StateA = (Except.error (Err.other "Not enough balance."), c7StateA) ∧
    transfer 32 (some 1) 2 1 c7StateB = (Except.error Err.storageOverflow, c7StateB) :=
  ⟨(transfer_failure_no_mutation 32 1 2 5 c7StateA).1 (by decide),
   (transfer_failure_no_mutation 32 1 2 1 c7StateB).2 (by decide) (by decide)⟩

end Erc20

namespace Erc20

/-- Concrete state for the C8 counterexample: account 1 holds 10
tokens. -/
def c8CexState : State :=
  { tokens := { name := [84], ticker := [84], total_supply := 10 }
    balanceOf := [(1, 10)]
    allowance := []
    events := [] }

/-- C8 counterexample: the claim says after every successful
`transfer(caller, to, value)` the caller's balance equals its old balance
minus `value`; the successful self-transfer `transfer(1, 1, 5)` from
balance 10 ends at 15, not 5. -/
theorem transfer_self_post_cex :
    (transfer 32 (some 1) 1 5 c8CexState).1 = Except.ok () ∧
    balance_of (transfer 32 (some 1) 1 5 c8CexState).2 1 = 15 ∧
    balance_of c8CexState 1 - 5 = 5 ∧
    balance_of (transfer 32 (some 1) 1 5 c8CexState).2 1 ≠ balance_of c8CexState 1 - 5 := by
  refine ⟨rfl, by decide, by decide, by decide⟩

/-- C8 (amended): for every successful `transfer(caller, to, value)` with
caller and receiver DISTINCT, afterwards the caller's balance is its old
balance minus `value`, the receiver's is its old balance plus `value`,
every other balance, every allowance entry and the token record are
unchanged, and a `Transfer(caller, to, value)` event is deposited. -/
theorem transfer_success_post (w : Nat) (caller to_ : AccountId) (v : Nat) (s : State)
    (hne : caller ≠ to_)
    (hok : (transfer w (some caller) to_ v s).1 = Except.ok ()) :
    balance_of (transfer w (some caller) to_ v s).2 caller = balance_of s caller - v ∧
    balance_of (transfer w (some caller) to_ v s).2 to_ = balance_of s to_ + v ∧
    (∀ a, a ≠ caller → a ≠ to_ →
      balance_of (transfer w (some caller) to_ v s).2 a = balance_of s a) ∧
    ((transfer w (some caller) to_ v s).2).allowance = s.allowance ∧
    ((transfer w (some caller) to_ v s).2).tokens = s.tokens ∧
    ((transfer w (some caller) to_ v s).2).events =
      s.events ++ [RawEvent.Transfer caller to_ v] := by
  have key : transfer w (some caller) to_ v s = _transfer w caller to_ v s := by
    simp [transfer, ensure_signed]
  rw [key] at hok ⊢
  by_cases h1 : v ≤ balance_of s caller
  · by_cases h2 : balance_of s to_ + v < 2 ^ w
    · rw [_transfer_ok w caller to_ v s h1 h2]
      refine ⟨?_, ?_, ?_, rfl, rfl, rfl⟩
      · show mapLookup (mapInsert (mapInsert s.balanceOf caller (balance_of s caller - v)) to_
          (balance_of s to_ + v)) caller = balance_of s caller - v
        rw [mapLookup_mapInsert_ne _ _ _ _ hne, mapLookup_mapInsert_eq]
      · show mapLookup (mapInsert (mapInsert s.balanceOf caller (balance_of s caller - v)) to_
          (balance_of s to_ + v)) to_ = balance_of s to_ + v
        rw [mapLookup_mapInsert_eq]
      · intro a ha1 ha2
        show mapLookup (mapInsert (mapInsert s.balanceOf caller (balance_of s caller - v)) to_
          (balance_of s to_ + v)) a = balance_of s a
        rw [mapLookup_mapInsert_ne _ _ _ _ ha2, mapLookup_mapInsert_ne _ _ _ _ ha1]
        rfl
    · exfalso
      simp [_transfer, checked_sub, checked_add, h1, h2] at hok
  · exfalso
    simp [_transfer, h1] at hok

/-- Concrete state for the C8 witness: account 1 holds 1000 tokens,
accounts 2 and 3 hold none. -/
def c8WitState : State :=
  { tokens := { name := [84], ticker := [84], total_supply := 1000 }
    balanceOf := [(1, 1000)]
    allowance := [(((1 : AccountId), (3 : AccountId)), 7)]
    events := [] }

/-- C8 witness: the amended postcondition theorem at the spec's own
scenario, `transfer(1, 2, 300)` from balance 1000, width 32, with the
untouched-account clause instantiated at account 3. -/
theorem transfer_success_post_witness :
    balance_of (transfer 32 (some 1) 2 300 c8WitState).2 1 = balance_of c8WitState 1 - 300 ∧
    balance_of (transfer 32 (some 1) 2 300 c8WitState).2 2 = balance_of c8WitState 2 + 300 ∧
    balance_of (transfer 32 (some 1) 2 300 c8WitState).2 3 = balance_of c8WitState 3 ∧
    ((transfer 32 (some 1) 2 300 c8WitState).2).allowance = c8WitState.allowance ∧
    ((transfer 32 (some 1) 2 300 c8WitState).2).events =
      c8WitState.events ++ [RawEvent.Transfer 1 2 300] := by
  have h := transfer_success_post 32 1 2 300 c8WitState (by decide) rfl
  exact ⟨h.1, h.2.1, h.2.2.1 3 (by decide) (by decide), h.2.2.2.1, h.2.2.2.2.2⟩

/-- Shape of a successful `approve` on a signed origin: it always returns
`Ok`, stores the wrapped sum of the old allowance and `value`, and
deposits an `Approval` event carrying `value` (the delta). -/
theorem approve_eq (w : Nat) (o sp : AccountId) (v : Nat) (s : State) :
    approve w (some o) sp v s =
      (Except.ok (), { s with
        allowance := mapInsert s.allowance (o, sp) ((allowance s (o, sp) + v) % 2 ^ w)
        events := s.events ++ [RawEvent.Approval o sp v] }) := by
  simp [approve, ensure_signed, deposit_event]

/-- C9: `approve(owner, spender, value)` adds `value` to the existing
allowance rather than overwriting it (the stored value is the old
allowance plus `value`, reduced modulo the width), and deposits an
`Approval(owner, spender, value)` event carrying the delta, not the new
total; in particular on a fresh pair (allowance 0, width at least large
enough for 15) `approve(o, s, 10)` followed by `approve(o, s, 5)` yields
allowance 15. -/
theorem approve_additive (w : Nat) (o sp : AccountId) (v : Nat) (s : State)
    (h16 : 16 ≤ 2 ^ w) (h0 : allowance s (o, sp) = 0) :
    ((approve w (some o) sp v s).1 = Except.ok () ∧
      allowance (approve w (some o) sp v s).2 (o, sp) = (allowance s (o, sp) + v) % 2 ^ w ∧
      ((approve w (some o) sp v s).2).events = s.events ++ [RawEvent.Approval o sp v]) ∧
    allowance (approve w (some o) sp 5 (approve w (some o) sp 10 s).2).2 (o, sp) = 15 := by
  have h10 : allowance (approve w (some o) sp 10 s).2 (o, sp) = 10 := by
    rw [approve_eq]
    simp [allowance, mapLookup_mapInsert_eq]
    rw [show mapLookup s.allowance (o, sp) = 0 from h0]
    exact Nat.mod_eq_of_lt (lt_of_lt_of_le (by norm_num) h16)
  constructor
  · rw [approve_eq]
    exact ⟨rfl, by simp [allowance, mapLookup_mapInsert_eq], rfl⟩
  · rw [approve_eq]
    simp only [allowance, mapLookup_mapInsert_eq]
    rw [show mapLookup ((approve w (some o) sp 10 s).2).allowance (o, sp) = 10 from h10]
    exact Nat.mod_eq_of_lt (lt_of_lt_of_le (by norm_num) h16)

/-- C9 witness: the additive-approve theorem on the fresh state at owner
1, spender 2, delta 7, width 32, including the 10-then-5 scenario. -/
theorem approve_additive_witness :
    ((approve 32 (some 1) 2 7 freshState).1 = Except.ok () ∧
      allowance (approve 32 (some 1) 2 7 freshState).2 (1, 2) =
        (allowance freshState (1, 2) + 7) % 2 ^ 32 ∧
      ((approve 32 (some 1) 2 7 freshState).2).events =
        freshState.events ++ [RawEvent.Approval 1 2 7]) ∧
    allowance (approve 32 (some 1) 2 5 (approve 32 (some 1) 2 10 freshState).2).2 (1, 2) = 15 :=
  approve_additive 32 1 2 7 freshState (by decide) (by decide)

end Erc20

namespace Erc20

/-- C10: `init(caller, name, ticker, total_supply)` fails with the
name-too-long error when the name exceeds 64 bytes and with the
ticker-too-long error when the ticker exceeds 32 bytes, in both cases
returning the initial state unchanged; within bounds it stores the token
record `{name, ticker, total_supply}` and sets the caller's balance to
`total_supply`, leaving every other balance unchanged — so on a fresh
(all-zero) ledger the caller becomes the sole holder. -/
theorem init_spec (name ticker : List Nat) (total_supply : Nat) (caller : AccountId)
    (s : State) :
    (64 < name.length →
      init (some caller) name ticker total_supply s =
        (Except.error (Err.other "token name cannot exceed 64 bytes"), s)) ∧
    (name.length ≤ 64 → 32 < ticker.length →
      init (some caller) name ticker total_supply s =
        (Except.error (Err.other "token ticker cannot exceed 32 bytes"), s)) ∧
    (name.length ≤ 64 → ticker.length ≤ 32 →
      (init (some caller) name ticker total_supply s).1 = Except.ok () ∧
      token_details (init (some caller) name ticker total_supply s).2 =
        { name := name, ticker := ticker, total_supply := total_supply } ∧
      balance_of (init (some caller) name ticker total_supply s).2 caller = total_supply ∧
      (∀ a, a ≠ caller →
        balance_of (init (some caller) name ticker total_supply s).2 a = balance_of s a) ∧
      ((∀ a, balance_of s a = 0) → ∀ a, a ≠ caller →
        balance_of (init (some caller) name ticker total_supply s).2 a = 0)) := by
  refine ⟨?_, ?_, ?_⟩
  · intro h
    simp [init, ensure_signed, Nat.not_le.mpr h]
  · intro h1 h2
    simp [init, ensure_signed, h1, Nat.not_le.mpr h2]
  · intro h1 h2
    have key : init (some caller) name ticker total_supply s =
        (Except.ok (), { s with
          tokens := { name := name, ticker := ticker, total_supply := total_supply }
          balanceOf := mapInsert s.balanceOf caller total_supply }) := by
      simp [init, ensure_signed, h1, h2]
    rw [key]
    refine ⟨rfl, rfl, ?_, ?_, ?_⟩
    · show mapLookup (mapInsert s.balanceOf caller total_supply) caller = total_supply
      rw [mapLookup_mapInsert_eq]
    · intro a ha
      show mapLookup (mapInsert s.balanceOf caller total_supply) a = balance_of s a
      rw [mapLookup_mapInsert_ne _ _ _ _ ha]
      rfl
    · intro hz a ha
      show mapLookup (mapInsert s.balanceOf caller total_supply) a = 0
      rw [mapLookup_mapInsert_ne _ _ _ _ ha]
      exact hz a

/-- C10 witness: all three branches of the `init` theorem at concrete
inputs on the fresh ledger — a 65-byte name, a 33-byte ticker, and a
successful issuance of 10 tokens to caller 1 with account 2 (checked as
a representative) still holding zero. -/
theorem init_spec_witness :
    init (some 1) (List.replicate 65 0) [7] 10 freshState =
      (Except.error (Err.other "token name cannot exceed 64 bytes"), freshState) ∧
    init (some 1) [7] (List.replicate 33 0) 10 freshState =
      (Except.error (Err.other "token ticker cannot exceed 32 bytes"), freshState) ∧
    (init (some 1) [7] [8] 10 freshState).1 = Except.ok () ∧
    token_details (init (some 1) [7] [8] 10 freshState).2 =
      { name := [7], ticker := [8], total_supply := 10 } ∧
    balance_of (init (some 1) [7] [8] 10 freshState).2 1 = 10 ∧
    balance_of (init (some 1) [7] [8] 10 freshState).2 2 = 0 := by
  have hA := (init_spec (List.replicate 65 0) [7] 10 1 freshState).1 (by decide)
  have hB := (init_spec [7] (List.replicate 33 0) 10 1 freshState).2.1 (by decide) (by decide)
  have hC := (init_spec [7] [8] 10 1 freshState).2.2 (by decide) (by decide)
  exact ⟨hA, hB, hC.1, hC.2.1, hC.2.2.1, hC.2.2.2.2 (fun a => rfl) 2 (by decide)⟩

end Erc20
